import Mathlib

/-!
Verification development for the erlySense waitlist repository.

The repository has two source files:
* a client form controller (React component) whose logic pieces are
  `validateEmail` and `handleSubmit`;
* a serverless intake handler `onRequestPost` (Cloudflare Pages function)
  with the regex `EMAIL_RE`, an optional key-value write and an optional
  notification POST to the Resend API.

The embedding below translates those pieces into pure Lean functions.
Strings are Lean `String`s; character-level reasoning is done on `String.data`
(a `List Char`).  The JavaScript regex `/^[^\s@]+@[^\s@]+\.[^\s@]+$/` is an
anchored pattern, so `test` returns `true` exactly when the whole string is in
the pattern's language; `emailReMatch` below is a backtracking matcher for
exactly that pattern, built from two combinators (`plusThen` for `[..]+`,
`litThen` for a literal character).  Effects of the handler and of the client
submit (KV puts, outbound fetches, console logging, React state updates) are
made explicit: each operation returns its result together with a trace of the
side effects it performed, and the outcomes of the awaited external calls
(KV `put`, `fetch`) are inputs of the model (`Outcome`), since the code only
branches on them.
-/

/-- The set matched by the JavaScript regex class `\s` (ECMAScript
WhiteSpace ∪ LineTerminator): TAB, LF, VT, FF, CR, SP, NBSP, U+1680,
U+2000–U+200A, U+2028, U+2029, U+202F, U+205F, U+3000, U+FEFF.
This is also the set removed from both ends by `String.prototype.trim`. -/
def jsWhitespace (c : Char) : Bool :=
  c.toNat = 0x9 || c.toNat = 0xA || c.toNat = 0xB || c.toNat = 0xC ||
  c.toNat = 0xD || c.toNat = 0x20 || c.toNat = 0xA0 || c.toNat = 0x1680 ||
  (0x2000 ≤ c.toNat && c.toNat ≤ 0x200A) ||
  c.toNat = 0x2028 || c.toNat = 0x2029 || c.toNat = 0x202F ||
  c.toNat = 0x205F || c.toNat = 0x3000 || c.toNat = 0xFEFF

/-- A character admitted by the regex class `[^\s@]`: neither JS whitespace
nor a literal `@`. -/
def isEmailChar (c : Char) : Bool :=
  !(jsWhitespace c) && c ≠ '@'

/-- Matcher combinator for `p+` followed by a continuation: succeeds iff the
list splits as a non-empty block of characters satisfying `p` followed by a
suffix accepted by `k` (all split points are tried, as regex backtracking
does). -/
def plusThen (p : Char → Bool) (k : List Char → Bool) : List Char → Bool
  | [] => false
  | c :: cs => p c && (k cs || plusThen p k cs)

/-- Matcher combinator for a literal character followed by a continuation. -/
def litThen (t : Char) (k : List Char → Bool) : List Char → Bool
  | [] => false
  | c :: cs => c == t && k cs

/-- Whole-string matcher for the anchored regex
`/^[^\s@]+@[^\s@]+\.[^\s@]+$/` shared by the client and the handler. -/
def emailReMatch : List Char → Bool :=
  plusThen isEmailChar
    (litThen '@'
      (plusThen isEmailChar
        (litThen '.'
          (plusThen isEmailChar List.isEmpty))))

/-- Client-side predicate `validateEmail` (src/unnamed/part_000:43-47):
`/^[^\s@]+@[^\s@]+\.[^\s@]+$/.test(email)`.  The debug logging around the
test is effect-free with respect to the returned Boolean. -/
def validateEmail (email : String) : Bool :=
  emailReMatch email.data

/-- Server-side predicate: `EMAIL_RE.test` for the regex constant
`EMAIL_RE = /^[^\s@]+@[^\s@]+\.[^\s@]+$/` (src/functions/api/interest.ts:8). -/
def EMAIL_RE_test (s : String) : Bool :=
  emailReMatch s.data

/-- `String.prototype.trim` on the underlying character list: removes JS
whitespace from both ends. -/
def jsTrimList (l : List Char) : List Char :=
  ((l.dropWhile jsWhitespace).reverse.dropWhile jsWhitespace).reverse

/-- `String.prototype.trim`. -/
def jsTrim (s : String) : String :=
  ⟨jsTrimList s.data⟩

/-- Outcome of an awaited external call: the promise resolves with a value or
rejects (throws). -/
inductive Outcome (α : Type) where
  | ok (a : α)
  | thrown
deriving DecidableEq, Repr

/-- The part of a `fetch` response the code inspects: `ok`, `status`,
and the body text read by `r.text()`. -/
structure FetchResponse where
  ok : Bool
  status : Nat
  text : String
deriving DecidableEq, Repr

/-- JSON payload fields the handler reads from the parsed body.  A missing
field is `none`; `String(x || "")` on an optional string field is
`Option.getD "" ` (for `some s` JavaScript yields `s` when `s ≠ ""` and `""`
otherwise, which coincides with `getD`). -/
structure Payload where
  email : Option String
  note : Option String
deriving DecidableEq, Repr

/-- Bindings of the handler's `Env` (src/functions/api/interest.ts:1-6):
presence of the `WAITLIST` KV namespace and the two optional notification
settings. -/
structure Env where
  WAITLIST : Bool
  RESEND_API_KEY : Option String
  NOTIFY_TO : Option String
deriving DecidableEq, Repr

/-- JavaScript truthiness of an optional string binding (`undefined` and the
empty string are falsy). -/
def isTruthy : Option String → Bool
  | none => false
  | some s => s ≠ ""

/-- The notification branch is taken when both `env.RESEND_API_KEY` and
`env.NOTIFY_TO` are truthy. -/
def notifyConfigured (env : Env) : Bool :=
  isTruthy env.RESEND_API_KEY && isTruthy env.NOTIFY_TO

/-- What the handler reads from the incoming request: the JSON body
(`none` when `request.json()` rejects, which the code maps to `{}` via
`.catch(() => ({}))`) and the two headers it forwards into the stored
record (`headers.get` returns `null` for a missing header). -/
structure RequestInfo where
  parsedBody : Option Payload
  userAgent : Option String
  ip : Option String
deriving DecidableEq, Repr

/-- Ambient values the handler samples, and the outcomes of its two awaited
external calls. `now` is `Date.now()`, `uuid` is `crypto.randomUUID()`,
`nowISO` is `new Date().toISOString()`. -/
structure World where
  now : Nat
  uuid : String
  nowISO : String
  kvPut : Outcome Unit
  fetchResult : Outcome FetchResponse
deriving DecidableEq, Repr

/-- The record the handler serializes into the KV value
(src/functions/api/interest.ts:22-27): email, note, the `user-agent` and
`cf-connecting-ip` headers, and the ISO-8601 timestamp.  `JSON.stringify`
at the call site is modelled by recording this structure itself. -/
structure StoredRecord where
  email : String
  note : String
  ua : Option String
  ip : Option String
  «at» : String
deriving DecidableEq, Repr

/-- Response body shape `{ok, error?}` used by all three handler responses. -/
structure ApiBody where
  ok : Bool
  error : Option String
deriving DecidableEq, Repr

/-- An HTTP response of the handler: status code and JSON body. -/
structure HttpResponse where
  status : Nat
  body : ApiBody
deriving DecidableEq, Repr

/-- `200 {ok:true}`. -/
def okResp : HttpResponse := ⟨200, ⟨true, none⟩⟩

/-- `400 {ok:false, error:"Invalid email"}`. -/
def invalidResp : HttpResponse := ⟨400, ⟨false, some "Invalid email"⟩⟩

/-- `500 {ok:false, error:"Server error"}` (outer catch). -/
def serverErrorResp : HttpResponse := ⟨500, ⟨false, some "Server error"⟩⟩

/-- Observable side effects of one handler invocation, in program order. -/
inductive Effect where
  | kvPut (key : String) (value : StoredRecord)
  | sendNotification (toAddr : String) (subject : String) (htmlNote : String)
  | logResendFail (status : Nat) (text : String)
  | logError
deriving DecidableEq, Repr

/-- The email the handler validates: `String(data?.email || "").trim()` with
the parse-failure fallback `{}`. -/
def handlerEmail (req : RequestInfo) : String :=
  jsTrim ((req.parsedBody.getD ⟨none, none⟩).email.getD "")

/-- The note the handler stores: `String(data?.note || "").trim()`. -/
def handlerNote (req : RequestInfo) : String :=
  jsTrim ((req.parsedBody.getD ⟨none, none⟩).note.getD "")

/-- KV key `waitlist:${Date.now()}:${crypto.randomUUID()}`. -/
def waitlistKey (w : World) : String :=
  "waitlist:" ++ toString w.now ++ ":" ++ w.uuid

/-- `note.replace(/</g, "&lt;")`. -/
def escapeLt (s : String) : String :=
  ⟨s.data.foldr (fun c acc => if c = '<' then '&' :: 'l' :: 't' :: ';' :: acc else c :: acc) []⟩

/-- The note as interpolated into the notification HTML:
`note ? note.replace(/</g,"&lt;") : "(none)"`. -/
def resendHtmlNote (note : String) : String :=
  if note = "" then "(none)" else escapeLt note

/-- Did the outcome reject? -/
def isThrown : Outcome Unit → Bool
  | .ok _ => false
  | .thrown => true

/-- The waitlist intake handler `onRequestPost`
(src/functions/api/interest.ts:10-67) as a pure function from environment,
request and external-call outcomes to its HTTP response plus effect trace.
The outer `try`/`catch` is rendered by routing a rejection of either awaited
call to the `serverErrorResp` branch (with the `console.error(err)` log). -/
def onRequestPost (env : Env) (req : RequestInfo) (w : World) :
    HttpResponse × List Effect :=
  let email := handlerEmail req
  let note := handlerNote req
  if EMAIL_RE_test email then
    let kvEff : List Effect :=
      if env.WAITLIST then
        [Effect.kvPut (waitlistKey w) ⟨email, note, req.userAgent, req.ip, w.nowISO⟩]
      else []
    if env.WAITLIST && isThrown w.kvPut then
      (serverErrorResp, kvEff ++ [Effect.logError])
    else if notifyConfigured env then
      let nEff := Effect.sendNotification (env.NOTIFY_TO.getD "")
        ("erlySense waitlist: " ++ email) (resendHtmlNote note)
      match w.fetchResult with
      | .thrown => (serverErrorResp, kvEff ++ [nEff, Effect.logError])
      | .ok r =>
        if r.ok then (okResp, kvEff ++ [nEff])
        else (okResp, kvEff ++ [nEff, Effect.logResendFail r.status r.text])
    else
      (okResp, kvEff)
  else
    (invalidResp, [])

/-- The KV writes contained in an effect trace, as key/value pairs. -/
def kvPuts : List Effect → List (String × StoredRecord)
  | [] => []
  | Effect.kvPut k v :: es => (k, v) :: kvPuts es
  | _ :: es => kvPuts es

/-- Client status message `{ok, msg}` set by `setStatus`. -/
structure ClientStatus where
  ok : Bool
  msg : String
deriving DecidableEq, Repr

/-- React component state touched by `handleSubmit`: the controlled inputs
`email`, `note`, the honeypot `trap`, the in-flight flag `isLoading` and the
status banner. -/
structure ClientState where
  email : String
  note : String
  trap : String
  isLoading : Bool
  status : Option ClientStatus
deriving DecidableEq, Repr

/-- JSON body of the client's POST: `{email, note, source: "coming-soon"}`. -/
structure SubmitPayload where
  email : String
  note : String
  source : String
deriving DecidableEq, Repr

/-- Observable effect of the client submit: the one `fetch` POST. -/
inductive ClientEffect where
  | fetchPost (url : String) (body : SubmitPayload)
deriving DecidableEq, Repr

/-- Default interest endpoint (the `VITE_INTEREST_ENDPOINT` fallback). -/
def INTEREST_ENDPOINT : String := "/api/interest"

/-- The client submit operation `handleSubmit` (src/unnamed/part_000:142-160)
as a pure function from the pre-submit component state and the outcome of the
one awaited `fetch` to the post-submit state and the effect trace.  `if
(trap) return` aborts on a truthy (non-empty) honeypot; a non-ok response is
`throw`n into the same `catch` as a rejected `fetch`; the `finally` clears
`isLoading` on every path that entered the `try`. -/
def handleSubmit (s : ClientState) (o : Outcome FetchResponse) :
    ClientState × List ClientEffect :=
  if s.trap ≠ "" then (s, [])
  else if validateEmail s.email = false then
    ({ s with status := some ⟨false, "Please enter a valid email."⟩ }, [])
  else
    let eff := [ClientEffect.fetchPost INTEREST_ENDPOINT ⟨s.email, s.note, "coming-soon"⟩]
    match o with
    | .thrown =>
      ({ s with
          status := some ⟨false, "Something went wrong. Please try again."⟩,
          isLoading := false }, eff)
    | .ok r =>
      if r.ok = false then
        ({ s with
            status := some ⟨false, "Something went wrong. Please try again."⟩,
            isLoading := false }, eff)
      else
        ({ s with
            status := some ⟨true, "Thanks! We'll be in touch soon."⟩,
            email := "", note := "", isLoading := false }, eff)

/-! ### Language of the regex matcher -/

theorem plusThen_eq_true_iff (p : Char → Bool) (k : List Char → Bool)
    (l : List Char) :
    plusThen p k l = true ↔
      ∃ a b, a ≠ [] ∧ (∀ c ∈ a, p c = true) ∧ k b = true ∧ l = a ++ b := by
  induction l with
  | nil =>
    constructor
    · intro h; exact absurd h (by simp [plusThen])
    · rintro ⟨a, b, ha, -, -, heq⟩
      cases a with
      | nil => exact absurd rfl ha
      | cons x xs => simp at heq
  | cons c cs ih =>
    constructor
    · intro h
      simp only [plusThen, Bool.and_eq_true, Bool.or_eq_true] at h
      obtain ⟨hpc, hk | hrec⟩ := h
      · exact ⟨[c], cs, by simp, by simpa using hpc, hk, rfl⟩
      · obtain ⟨a, b, ha, hall, hk, heq⟩ := ih.mp hrec
        refine ⟨c :: a, b, by simp, ?_, hk, by simp [heq]⟩
        intro x hx
        rcases List.mem_cons.mp hx with h1 | h2
        · exact h1 ▸ hpc
        · exact hall x h2
    · rintro ⟨a, b, ha, hall, hk, heq⟩
      cases a with
      | nil => exact absurd rfl ha
      | cons x xs =>
        simp only [List.cons_append, List.cons.injEq] at heq
        obtain ⟨rfl, hcs⟩ := heq
        simp only [plusThen, Bool.and_eq_true, Bool.or_eq_true]
        refine ⟨hall c (by simp), ?_⟩
        cases xs with
        | nil =>
          left
          simpa [hcs] using hk
        | cons y ys =>
          right
          exact ih.mpr ⟨y :: ys, b, by simp,
            fun z hz => hall z (List.mem_cons_of_mem _ hz), hk, hcs⟩

theorem litThen_eq_true_iff (t : Char) (k : List Char → Bool) (l : List Char) :
    litThen t k l = true ↔ ∃ b, l = t :: b ∧ k b = true := by
  cases l with
  | nil => simp [litThen]
  | cons c cs =>
    simp only [litThen, Bool.and_eq_true, beq_iff_eq]
    constructor
    · rintro ⟨rfl, hk⟩; exact ⟨cs, rfl, hk⟩
    · rintro ⟨b, heq, hk⟩
      injection heq with h1 h2
      subst h1; subst h2
      exact ⟨rfl, hk⟩

theorem plusThen_isEmpty_iff (p : Char → Bool) (l : List Char) :
    plusThen p List.isEmpty l = true ↔ l ≠ [] ∧ ∀ c ∈ l, p c = true := by
  rw [plusThen_eq_true_iff]
  constructor
  · rintro ⟨a, b, ha, hall, hk, rfl⟩
    have hb : b = [] := by simpa using hk
    subst hb
    exact ⟨by simpa using ha, by simpa using hall⟩
  · rintro ⟨hl, hall⟩
    exact ⟨l, [], hl, hall, by simp, by simp⟩

/-- The language of `EMAIL_RE`: exactly the strings that split as
`a ++ "@" ++ b ++ "." ++ c` with `a`, `b`, `c` non-empty blocks of
non-whitespace, non-`@` characters (note `b` and `c` may themselves
contain further dots — the regex backtracks). -/
theorem emailReMatch_eq_true_iff (l : List Char) :
    emailReMatch l = true ↔
      ∃ a b c : List Char, a ≠ [] ∧ b ≠ [] ∧ c ≠ [] ∧
        (∀ x ∈ a, isEmailChar x = true) ∧ (∀ x ∈ b, isEmailChar x = true) ∧
        (∀ x ∈ c, isEmailChar x = true) ∧ l = a ++ '@' :: (b ++ '.' :: c) := by
  unfold emailReMatch
  rw [plusThen_eq_true_iff]
  constructor
  · rintro ⟨a, r1, ha, hALLa, h1, rfl⟩
    rw [litThen_eq_true_iff] at h1
    obtain ⟨r2, rfl, h2⟩ := h1
    rw [plusThen_eq_true_iff] at h2
    obtain ⟨b, r3, hb, hALLb, h3, rfl⟩ := h2
    rw [litThen_eq_true_iff] at h3
    obtain ⟨r4, rfl, h4⟩ := h3
    rw [plusThen_isEmpty_iff] at h4
    obtain ⟨hc, hALLc⟩ := h4
    exact ⟨a, b, r4, ha, hb, hc, hALLa, hALLb, hALLc, rfl⟩
  · rintro ⟨a, b, c, ha, hb, hc, hALLa, hALLb, hALLc, rfl⟩
    refine ⟨a, '@' :: (b ++ '.' :: c), ha, hALLa, ?_, rfl⟩
    rw [litThen_eq_true_iff]
    refine ⟨b ++ '.' :: c, rfl, ?_⟩
    rw [plusThen_eq_true_iff]
    refine ⟨b, '.' :: c, hb, hALLb, ?_, rfl⟩
    rw [litThen_eq_true_iff]
    refine ⟨c, rfl, ?_⟩
    rw [plusThen_isEmpty_iff]
    exact ⟨hc, hALLc⟩

/-! ### Whitespace and trim facts -/

theorem isEmailChar_ws_false {x : Char} (h : isEmailChar x = true) :
    jsWhitespace x = false := by
  simp only [isEmailChar, Bool.and_eq_true, Bool.not_eq_true'] at h
  exact h.1

theorem isEmailChar_ne_at {x : Char} (h : isEmailChar x = true) : x ≠ '@' := by
  simp only [isEmailChar, Bool.and_eq_true, decide_eq_true_eq] at h
  exact h.2

/-- Any string accepted by the regex contains no JS whitespace character. -/
theorem emailReMatch_no_ws {l : List Char} (h : emailReMatch l = true) :
    ∀ x ∈ l, jsWhitespace x = false := by
  obtain ⟨a, b, c, -, -, -, hALLa, hALLb, hALLc, rfl⟩ :=
    (emailReMatch_eq_true_iff l).mp h
  intro x hx
  simp only [List.mem_append, List.mem_cons] at hx
  rcases hx with ha | rfl | hb | rfl | hc
  · exact isEmailChar_ws_false (hALLa x ha)
  · decide
  · exact isEmailChar_ws_false (hALLb x hb)
  · decide
  · exact isEmailChar_ws_false (hALLc x hc)

/-- Any string accepted by the regex contains a literal `@`. -/
theorem emailReMatch_mem_at {l : List Char} (h : emailReMatch l = true) :
    '@' ∈ l := by
  obtain ⟨a, b, c, -, -, -, -, -, -, rfl⟩ := (emailReMatch_eq_true_iff l).mp h
  simp

theorem dropWhile_eq_self_of_none {p : Char → Bool} {l : List Char}
    (h : ∀ c ∈ l, p c = false) : l.dropWhile p = l := by
  cases l with
  | nil => rfl
  | cons c cs => simp [List.dropWhile_cons, h c (by simp)]

theorem jsTrimList_eq_self {l : List Char}
    (h : ∀ c ∈ l, jsWhitespace c = false) : jsTrimList l = l := by
  unfold jsTrimList
  rw [dropWhile_eq_self_of_none h,
    dropWhile_eq_self_of_none (fun c hc => h c (List.mem_reverse.mp hc)),
    List.reverse_reverse]

/-- If `trim` changes a string, the string contains a whitespace character. -/
theorem exists_ws_of_jsTrim_ne {s : String} (h : jsTrim s ≠ s) :
    ∃ c ∈ s.data, jsWhitespace c = true := by
  by_contra hno
  push_neg at hno
  refine h ?_
  have hl : jsTrimList s.data = s.data :=
    jsTrimList_eq_self (fun c hc => Bool.not_eq_true _ ▸ hno c hc)
  show (⟨jsTrimList s.data⟩ : String) = s
  rw [hl]

/-- A string that `trim` changes is rejected by `validateEmail` as-is. -/
theorem validateEmail_false_of_jsTrim_ne {s : String} (h : jsTrim s ≠ s) :
    validateEmail s = false := by
  obtain ⟨c, hc, hws⟩ := exists_ws_of_jsTrim_ne h
  by_contra hv
  have : emailReMatch s.data = true := by
    simpa [validateEmail] using Bool.not_eq_false _ ▸ hv
  have := emailReMatch_no_ws this c hc
  rw [this] at hws
  exact Bool.false_ne_true hws

/-! ### Handler branch analysis -/

theorem data_ne_nil {s : String} (h : s ≠ "") : s.data ≠ [] := by
  intro hd
  apply h
  cases s with
  | mk d =>
    cases hd
    rfl

theorem kv_guard_false {env : Env} {w : World}
    (hkv : env.WAITLIST = true → w.kvPut = Outcome.ok ()) :
    (env.WAITLIST && isThrown w.kvPut) = false := by
  cases hW : env.WAITLIST with
  | false => rfl
  | true => rw [hkv hW]; rfl

theorem onRequestPost_ok_of (env : Env) (req : RequestInfo) (w : World)
    (hv : EMAIL_RE_test (handlerEmail req) = true)
    (hkv : env.WAITLIST = true → w.kvPut = Outcome.ok ())
    (hfr : notifyConfigured env = true → w.fetchResult ≠ Outcome.thrown) :
    (onRequestPost env req w).1 = okResp := by
  have hthr := kv_guard_false hkv
  cases hN : notifyConfigured env with
  | false => simp [onRequestPost, hv, hthr, hN]
  | true =>
    cases hf : w.fetchResult with
    | thrown => exact absurd hf (hfr hN)
    | ok r =>
      cases hok : r.ok with
      | false => simp [onRequestPost, hv, hthr, hN, hf, hok]
      | true => simp [onRequestPost, hv, hthr, hN, hf, hok]

theorem onRequestPost_500_of_kvThrown (env : Env) (req : RequestInfo) (w : World)
    (hv : EMAIL_RE_test (handlerEmail req) = true)
    (hW : env.WAITLIST = true) (hkv : w.kvPut = Outcome.thrown) :
    (onRequestPost env req w).1 = serverErrorResp := by
  simp [onRequestPost, hv, hW, hkv, isThrown]

theorem onRequestPost_500_of_fetchThrown (env : Env) (req : RequestInfo) (w : World)
    (hv : EMAIL_RE_test (handlerEmail req) = true)
    (hkv : env.WAITLIST = true → w.kvPut = Outcome.ok ())
    (hN : notifyConfigured env = true) (hf : w.fetchResult = Outcome.thrown) :
    (onRequestPost env req w).1 = serverErrorResp := by
  have hthr := kv_guard_false hkv
  simp [onRequestPost, hv, hthr, hN, hf]

theorem onRequestPost_resp_of_valid (env : Env) (req : RequestInfo) (w : World)
    (hv : EMAIL_RE_test (handlerEmail req) = true) :
    (onRequestPost env req w).1 = okResp ∨
      (onRequestPost env req w).1 = serverErrorResp := by
  cases hthr : (env.WAITLIST && isThrown w.kvPut) with
  | true => right; simp [onRequestPost, hv, hthr]
  | false =>
    cases hN : notifyConfigured env with
    | false => left; simp [onRequestPost, hv, hthr, hN]
    | true =>
      cases hf : w.fetchResult with
      | thrown => right; simp [onRequestPost, hv, hthr, hN, hf]
      | ok r =>
        cases hok : r.ok with
        | false => left; simp [onRequestPost, hv, hthr, hN, hf, hok]
        | true => left; simp [onRequestPost, hv, hthr, hN, hf, hok]

/-! ### Claim theorems -/

/-- C1: the email validation predicate (client `validateEmail`, and the
handler's `EMAIL_RE.test` which is the same predicate) accepts a string iff
it is one-or-more characters that are neither whitespace nor `@`, then a
literal `@`, then one-or-more such characters, then a literal `.`, then
one-or-more such characters, anchored over the whole string; in particular
`validateEmail "bad@domain" = false`, `validateEmail "user+tag@domain.edu" =
true`, and every string containing no `@` is rejected. -/
theorem C1_email_validation_predicate :
    (∀ s : String,
      (validateEmail s = true ↔
        ∃ a b c : List Char, a ≠ [] ∧ b ≠ [] ∧ c ≠ [] ∧
          (∀ x ∈ a, isEmailChar x = true) ∧ (∀ x ∈ b, isEmailChar x = true) ∧
          (∀ x ∈ c, isEmailChar x = true) ∧
          s.data = a ++ '@' :: (b ++ '.' :: c)) ∧
      EMAIL_RE_test s = validateEmail s) ∧
    validateEmail "bad@domain" = false ∧
    validateEmail "user+tag@domain.edu" = true ∧
    ∀ s : String, '@' ∉ s.data → validateEmail s = false := by
  refine ⟨fun s => ⟨emailReMatch_eq_true_iff s.data, rfl⟩, by decide, by decide, ?_⟩
  intro s hs
  cases hv : validateEmail s with
  | false => rfl
  | true => exact absurd (emailReMatch_mem_at hv) hs

/-- C1 witness: the universally quantified no-`@` conjunct applied to a
concrete string. -/
theorem C1_email_validation_predicate_witness :
    validateEmail "no-at" = false :=
  C1_email_validation_predicate.2.2.2 "no-at" (by decide)

/-- C2 counterexample: the handler-applied predicate is *not* extensionally
the client one, because the handler trims first: with email field
`" a@b.c"` the handler accepts (200 `{ok:true}`) while
`validateEmail " a@b.c"` is `false` (leading space). -/
theorem C2_cex :
    validateEmail " a@b.c" = false ∧
    (onRequestPost ⟨false, none, none⟩ ⟨some ⟨some " a@b.c", none⟩, none, none⟩
        ⟨0, "u", "t", Outcome.ok (), Outcome.ok ⟨true, 200, ""⟩⟩).1 = okResp := by
  constructor
  · decide
  · rfl

/-- C2 amended: the server regex test and the client `validateEmail` are the
same predicate on every string; the handler however applies it to the
*trimmed* email, so it answers 400 "Invalid email" exactly when
`validateEmail` rejects the trimmed field — for strings with surrounding
whitespace the handler can accept what the client predicate rejects. -/
theorem C2_amended_same_predicate_on_trimmed :
    (∀ s : String, EMAIL_RE_test s = validateEmail s) ∧
    ∀ (env : Env) (p : Payload) (ua ip : Option String) (w : World),
      ((onRequestPost env ⟨some p, ua, ip⟩ w).1 = invalidResp ↔
        validateEmail (jsTrim (p.email.getD "")) = false) := by
  refine ⟨fun s => rfl, ?_⟩
  intro env p ua ip w
  constructor
  · intro hresp
    cases hval : validateEmail (jsTrim (p.email.getD "")) with
    | false => rfl
    | true =>
      have hv : EMAIL_RE_test (handlerEmail ⟨some p, ua, ip⟩) = true := hval
      rcases onRequestPost_resp_of_valid env ⟨some p, ua, ip⟩ w hv with h | h
      · rw [hresp] at h; exact absurd h (by decide)
      · rw [hresp] at h; exact absurd h (by decide)
  · intro hval
    have hv : EMAIL_RE_test (handlerEmail ⟨some p, ua, ip⟩) = false := hval
    simp [onRequestPost, hv]

/-- C3 counterexample: `"a@b@c.d"` is of the form `local@domain.tld` with
`local = "a@b"`, `domain = "c"`, `tld = "d"` — all non-empty, no whitespace
anywhere — yet the predicate rejects it: no block of the regex may contain
`@`, so a second `@` defeats the match. -/
theorem C3_cex :
    ("a@b" ++ "@" ++ "c" ++ "." ++ "d" : String) = "a@b@c.d" ∧
    ("a@b" : String) ≠ "" ∧ ("c" : String) ≠ "" ∧ ("d" : String) ≠ "" ∧
    (∀ x ∈ ("a@b@c.d" : String).data, jsWhitespace x = false) ∧
    validateEmail "a@b@c.d" = false := by
  decide

/-- C3 amended: for all non-empty `local`, `domain`, `tld` containing
neither whitespace nor `@`, the predicate accepts
`local ++ "@" ++ domain ++ "." ++ tld`. -/
theorem C3_amended_wellformed_accepted (l d t : String)
    (hl : l ≠ "") (hd : d ≠ "") (ht : t ≠ "")
    (hlc : ∀ x ∈ l.data, jsWhitespace x = false ∧ x ≠ '@')
    (hdc : ∀ x ∈ d.data, jsWhitespace x = false ∧ x ≠ '@')
    (htc : ∀ x ∈ t.data, jsWhitespace x = false ∧ x ≠ '@') :
    validateEmail (l ++ "@" ++ d ++ "." ++ t) = true := by
  have hdata : (l ++ "@" ++ d ++ "." ++ t).data
      = l.data ++ '@' :: (d.data ++ '.' :: t.data) := by
    simp [String.data_append]
  show emailReMatch (l ++ "@" ++ d ++ "." ++ t).data = true
  rw [hdata, emailReMatch_eq_true_iff]
  refine ⟨l.data, d.data, t.data, data_ne_nil hl, data_ne_nil hd, data_ne_nil ht,
    ?_, ?_, ?_, rfl⟩
  · intro x hx; simp [isEmailChar, (hlc x hx).1, (hlc x hx).2]
  · intro x hx; simp [isEmailChar, (hdc x hx).1, (hdc x hx).2]
  · intro x hx; simp [isEmailChar, (htc x hx).1, (htc x hx).2]

/-- C3 witness: the amended statement at `local = "user+tag"`,
`domain = "domain"`, `tld = "edu"`. -/
theorem C3_amended_wellformed_accepted_witness :
    validateEmail ("user+tag" ++ "@" ++ "domain" ++ "." ++ "edu") = true :=
  C3_amended_wellformed_accepted "user+tag" "domain" "edu"
    (by decide) (by decide) (by decide) (by decide) (by decide) (by decide)

/-- C4: a POST whose body does not parse as JSON is treated as `{}` by the
`.catch(() => ({}))`; the resulting empty email fails validation, so the
handler answers 400 `{ok:false, error:"Invalid email"}` with no side
effects — never a 500 — for every environment and every outcome of the
external calls. -/
theorem C4_malformed_body_400 (env : Env) (ua ip : Option String) (w : World) :
    onRequestPost env ⟨none, ua, ip⟩ w = (invalidResp, []) := by
  have hv : EMAIL_RE_test (handlerEmail ⟨none, ua, ip⟩) = false := rfl
  simp [onRequestPost, hv]

/-- C5 counterexample: with the store configured and a valid email, a KV
`put` that *throws* is caught by the handler's outer try/catch and surfaces
to the caller as 500 `{ok:false, error:"Server error"}` — not the claimed
200 `{ok:true}`.  Thrown downstream failures are therefore not swallowed. -/
theorem C5_cex :
    (onRequestPost ⟨true, none, none⟩ ⟨some ⟨some "a@b.c", none⟩, none, none⟩
        ⟨0, "u", "t", Outcome.thrown, Outcome.ok ⟨true, 200, ""⟩⟩).1
      = serverErrorResp ∧
    serverErrorResp ≠ okResp := by
  decide

/-- C5 amended: for a request whose email passes validation, a downstream
failure that manifests as a non-success provider *response* is only logged
and the handler still returns 200 `{ok:true}` (first conjunct places no
constraint on the provider response); but a downstream call that *throws* —
the KV write or the notification fetch — is caught by the outer try/catch
and yields 500 `{ok:false, error:"Server error"}` instead of 200. -/
theorem C5_amended_downstream_failure_policy (env : Env) (req : RequestInfo)
    (w : World) (hv : EMAIL_RE_test (handlerEmail req) = true) :
    ((env.WAITLIST = true → w.kvPut = Outcome.ok ()) →
      (notifyConfigured env = true → w.fetchResult ≠ Outcome.thrown) →
      (onRequestPost env req w).1 = okResp) ∧
    (env.WAITLIST = true → w.kvPut = Outcome.thrown →
      (onRequestPost env req w).1 = serverErrorResp) ∧
    ((env.WAITLIST = true → w.kvPut = Outcome.ok ()) →
      notifyConfigured env = true → w.fetchResult = Outcome.thrown →
      (onRequestPost env req w).1 = serverErrorResp) := by
  refine ⟨?_, ?_, ?_⟩
  · intro hkv hfr
    exact onRequestPost_ok_of env req w hv hkv hfr
  · intro hW hkv
    exact onRequestPost_500_of_kvThrown env req w hv hW hkv
  · intro hkv hN hf
    exact onRequestPost_500_of_fetchThrown env req w hv hkv hN hf

/-- C5 witness: the amended statement at a concrete request — store
configured, KV put resolves, notification unconfigured — yields 200. -/
theorem C5_amended_downstream_failure_policy_witness :
    (onRequestPost ⟨true, none, none⟩ ⟨some ⟨some "a@b.c", none⟩, none, none⟩
        ⟨0, "u", "t", Outcome.ok (), Outcome.ok ⟨true, 200, ""⟩⟩).1 = okResp :=
  (C5_amended_downstream_failure_policy ⟨true, none, none⟩
      ⟨some ⟨some "a@b.c", none⟩, none, none⟩
      ⟨0, "u", "t", Outcome.ok (), Outcome.ok ⟨true, 200, ""⟩⟩
      (by decide)).1 (fun _ => rfl) (by decide)

/-- C6: when the email validates, the KV write (if any) resolves, the
notification is configured and the provider *returns* a non-success
response (`r.ok = false`), the handler's own response is unchanged:
still 200 `{ok:true}`. -/
theorem C6_provider_nonsuccess_still_200 (env : Env) (req : RequestInfo)
    (w : World) (r : FetchResponse)
    (hv : EMAIL_RE_test (handlerEmail req) = true)
    (hkv : env.WAITLIST = true → w.kvPut = Outcome.ok ())
    (hcfg : notifyConfigured env = true)
    (hr : w.fetchResult = Outcome.ok r) (hnok : r.ok = false) :
    (onRequestPost env req w).1 = okResp := by
  have hthr := kv_guard_false hkv
  simp [onRequestPost, hv, hthr, hcfg, hr, hnok]

/-- C6 witness: concrete request with a 500 provider response. -/
theorem C6_provider_nonsuccess_still_200_witness :
    (onRequestPost ⟨false, some "key", some "to"⟩
        ⟨some ⟨some "a@b.c", none⟩, none, none⟩
        ⟨0, "u", "t", Outcome.ok (), Outcome.ok ⟨false, 500, "boom"⟩⟩).1
      = okResp :=
  C6_provider_nonsuccess_still_200 ⟨false, some "key", some "to"⟩
    ⟨some ⟨some "a@b.c", none⟩, none, none⟩
    ⟨0, "u", "t", Outcome.ok (), Outcome.ok ⟨false, 500, "boom"⟩⟩
    ⟨false, 500, "boom"⟩ (by decide) (by decide) (by decide) rfl rfl

/-- C7: every submission that passes validation with the store configured
performs exactly one KV write, keyed
`"waitlist:" ++ Date.now() ++ ":" ++ randomUUID`, whose value is the record
`{email, note, ua (user-agent header), ip (cf-connecting-ip header),
at (ISO timestamp)}` — on every continuation path (KV throw, notification
configured or not, provider outcome). -/
theorem C7_single_store_write (env : Env) (req : RequestInfo) (w : World)
    (hW : env.WAITLIST = true)
    (hv : EMAIL_RE_test (handlerEmail req) = true) :
    kvPuts (onRequestPost env req w).2 =
      [("waitlist:" ++ toString w.now ++ ":" ++ w.uuid,
        ⟨handlerEmail req, handlerNote req, req.userAgent, req.ip, w.nowISO⟩)] := by
  cases hthr : isThrown w.kvPut with
  | true => simp [onRequestPost, hv, hW, hthr, waitlistKey, kvPuts]
  | false =>
    cases hN : notifyConfigured env with
    | false => simp [onRequestPost, hv, hW, hthr, hN, waitlistKey, kvPuts]
    | true =>
      cases hf : w.fetchResult with
      | thrown => simp [onRequestPost, hv, hW, hthr, hN, hf, waitlistKey, kvPuts]
      | ok r =>
        cases hok : r.ok with
        | false =>
          simp [onRequestPost, hv, hW, hthr, hN, hf, hok, waitlistKey, kvPuts]
        | true =>
          simp [onRequestPost, hv, hW, hthr, hN, hf, hok, waitlistKey, kvPuts]

/-- C7 witness: concrete accepted submission with the store configured. -/
theorem C7_single_store_write_witness :
    kvPuts (onRequestPost ⟨true, none, none⟩
        ⟨some ⟨some "a@b.c", some "note"⟩, some "UA", some "1.2.3.4"⟩
        ⟨7, "uuid", "2026-01-01T00:00:00.000Z", Outcome.ok (),
          Outcome.ok ⟨true, 200, ""⟩⟩).2 =
      [("waitlist:" ++ toString 7 ++ ":" ++ "uuid",
        ⟨handlerEmail ⟨some ⟨some "a@b.c", some "note"⟩, some "UA", some "1.2.3.4"⟩,
         handlerNote ⟨some ⟨some "a@b.c", some "note"⟩, some "UA", some "1.2.3.4"⟩,
         some "UA", some "1.2.3.4", "2026-01-01T00:00:00.000Z"⟩)] :=
  C7_single_store_write ⟨true, none, none⟩
    ⟨some ⟨some "a@b.c", some "note"⟩, some "UA", some "1.2.3.4"⟩
    ⟨7, "uuid", "2026-01-01T00:00:00.000Z", Outcome.ok (),
      Outcome.ok ⟨true, 200, ""⟩⟩ rfl (by decide)

/-- C8: `if (trap) return` — a non-empty honeypot makes the submit a silent
no-op: no fetch is issued (empty effect trace) and the component state
(email, note, isLoading, status) is returned unchanged. -/
theorem C8_honeypot_silent_noop (s : ClientState) (o : Outcome FetchResponse)
    (h : s.trap ≠ "") : handleSubmit s o = (s, []) := by
  simp [handleSubmit, h]

/-- C8 witness: a concrete bot-filled submission. -/
theorem C8_honeypot_silent_noop_witness :
    handleSubmit ⟨"a@b.c", "n", "bot", false, none⟩
        (Outcome.ok ⟨true, 200, ""⟩) =
      (⟨"a@b.c", "n", "bot", false, none⟩, []) :=
  C8_honeypot_silent_noop ⟨"a@b.c", "n", "bot", false, none⟩
    (Outcome.ok ⟨true, 200, ""⟩) (by decide)

/-- C9 counterexample: on the honeypot-abort termination the in-flight flag
is *not* cleared but left as it was: invoked with `isLoading = true` and a
non-empty trap, `handleSubmit` returns with `isLoading` still `true`. -/
theorem C9_cex :
    (handleSubmit ⟨"a@b.c", "", "x", true, none⟩
        (Outcome.ok ⟨true, 200, ""⟩)).1.isLoading = true := by
  decide

/-- C9 amended: if `handleSubmit` starts with `isLoading = false` — the only
way the UI invokes it, since the submit control is disabled while in flight —
then `isLoading` is false on every termination; moreover every path that
issues the network request (empty honeypot, validation passed) clears the
flag in the `finally` regardless of its initial value.  The honeypot-abort
and validation-failure paths merely leave the flag unchanged rather than
clearing it. -/
theorem C9_amended_inflight_flag (s : ClientState) (o : Outcome FetchResponse) :
    (s.isLoading = false → (handleSubmit s o).1.isLoading = false) ∧
    (s.trap = "" → validateEmail s.email = true →
      (handleSubmit s o).1.isLoading = false) := by
  have hcore : s.trap = "" → validateEmail s.email = true →
      (handleSubmit s o).1.isLoading = false := by
    intro ht hv
    cases o with
    | thrown => simp [handleSubmit, ht, hv]
    | ok r =>
      cases hok : r.ok with
      | false => simp [handleSubmit, ht, hv, hok]
      | true => simp [handleSubmit, ht, hv, hok]
  refine ⟨?_, hcore⟩
  intro hL
  by_cases ht : s.trap = ""
  · cases hv : validateEmail s.email with
    | true => exact hcore ht hv
    | false => simp [handleSubmit, ht, hv, hL]
  · simp [handleSubmit, ht, hL]

/-- C9 witness: the amended statement at a concrete quiescent state whose
fetch succeeds. -/
theorem C9_amended_inflight_flag_witness :
    (handleSubmit ⟨"a@b.c", "n", "", false, none⟩
        (Outcome.ok ⟨true, 200, ""⟩)).1.isLoading = false :=
  (C9_amended_inflight_flag ⟨"a@b.c", "n", "", false, none⟩
      (Outcome.ok ⟨true, 200, ""⟩)).1 rfl

/-- C10: the client validates without trimming while the handler trims
before validating.  For any email string that `trim` changes but that is
valid once trimmed: the client submit sets the failure status "Please enter
a valid email." and issues no network request, while a direct POST carrying
that same string is accepted by the handler with 200 `{ok:true}` (absent
any downstream throw). -/
theorem C10_client_handler_trim_mismatch (s note : String)
    (st : Option ClientStatus) (o : Outcome FetchResponse) (env : Env)
    (p : Payload) (ua ip : Option String) (w : World)
    (h1 : jsTrim s ≠ s) (h2 : validateEmail (jsTrim s) = true)
    (hp : p.email = some s)
    (hkv : env.WAITLIST = true → w.kvPut = Outcome.ok ())
    (hfr : notifyConfigured env = true → w.fetchResult ≠ Outcome.thrown) :
    handleSubmit ⟨s, note, "", false, st⟩ o =
      (⟨s, note, "", false, some ⟨false, "Please enter a valid email."⟩⟩, []) ∧
    (onRequestPost env ⟨some p, ua, ip⟩ w).1 = okResp := by
  constructor
  · have hval := validateEmail_false_of_jsTrim_ne h1
    simp [handleSubmit, hval]
  · have hv : EMAIL_RE_test (handlerEmail ⟨some p, ua, ip⟩) = true := by
      show EMAIL_RE_test (jsTrim (p.email.getD "")) = true
      rw [hp]
      exact h2
    exact onRequestPost_ok_of env ⟨some p, ua, ip⟩ w hv hkv hfr

/-- C10 witness: the mismatch at the concrete string `" a@b.c"`. -/
theorem C10_client_handler_trim_mismatch_witness :
    handleSubmit ⟨" a@b.c", "", "", false, none⟩ (Outcome.ok ⟨true, 200, ""⟩) =
      (⟨" a@b.c", "", "", false, some ⟨false, "Please enter a valid email."⟩⟩,
        []) ∧
    (onRequestPost ⟨false, none, none⟩ ⟨some ⟨some " a@b.c", none⟩, none, none⟩
        ⟨0, "u", "t", Outcome.ok (), Outcome.ok ⟨true, 200, ""⟩⟩).1 = okResp :=
  C10_client_handler_trim_mismatch " a@b.c" "" none (Outcome.ok ⟨true, 200, ""⟩)
    ⟨false, none, none⟩ ⟨some " a@b.c", none⟩ none none
    ⟨0, "u", "t", Outcome.ok (), Outcome.ok ⟨true, 200, ""⟩⟩
    (by decide) (by decide) rfl (by decide) (by decide)
